import Mathlib

/-!
Shallow embedding of the `setup-claude-code` GitHub action install/cache
pipeline (sources: `src/cache.ts`, `src/installer.ts`, `src/utils.ts`,
`src/main.ts`).  Ambient Node APIs (`os.platform()`, `os.arch()`,
`fs.existsSync`, network downloads, subprocess exit codes, the external
actions cache service) are modelled as explicit parameters: a `Host` record
for the OS probe functions and a `World` record for the network/filesystem
oracles.  Stateful filesystem effects are threaded through an explicit
state record `S`.
-/

namespace SetupClaudeCode

/-- Ambient host qualities read by `os.platform()`, `os.arch()` and
`fs.existsSync` in `utils.ts`. -/
structure Host where
  osType : String
  archType : String
  fileExists : String → Bool

/-- Model of the `Platform` interface from `utils.ts`: `{ os, arch, platform }`. -/
structure Platform where
  os : String
  arch : String
  platform : String
deriving Repr, DecidableEq

/-- Error kinds thrown by the pipeline.  Each constructor models a concrete
`throw new Error(...)` site in the source and carries the data interpolated
into that message. -/
inductive InstallError where
  | unsupportedPlatform (msg : String)
  | versionResolutionFailed
  | manifestMissing (platform : String)
  | invalidChecksumFormat (checksum : String)
  | checksumMismatch (expected actual : String)
  | installerSubprocessFailed
deriving Repr, DecidableEq

/-- The message string each error site interpolates (`installer.ts`,
`utils.ts`). -/
def errorMessage : InstallError → String
  | InstallError.unsupportedPlatform m => m
  | InstallError.versionResolutionFailed => "Failed to fetch stable version"
  | InstallError.manifestMissing platform => "Platform " ++ platform ++ " not found in manifest"
  | InstallError.invalidChecksumFormat c => "Invalid checksum format: " ++ c
  | InstallError.checksumMismatch e a =>
      "Checksum verification failed. Expected: " ++ e ++ ", Got: " ++ a
  | InstallError.installerSubprocessFailed => "Installer subprocess failed"

/-! ## Cache keys (`src/cache.ts`)

`getCacheKey` in the source reads `os.platform()` (the OS name, e.g.
`"linux"` or `"darwin"`) and `getCurrentDate()` (the current UTC calendar
date, produced by slicing the ISO timestamp at the letter T, shape `YYYY-MM-DD`); both
ambient reads become the explicit parameters `platform` and `date`. -/

/-- Model of `getCacheKey` from `src/cache.ts`: branch on equality of the token with "latest",
otherwise the version token is spliced into the key verbatim. -/
def getCacheKey (platform : String) (date : String) (version : String) : String :=
  if version = "latest" then
    "claude-code-" ++ platform ++ "-latest-" ++ date
  else
    "claude-code-" ++ platform ++ "-" ++ version

/-- Model of `getRestoreKeys` from `src/cache.ts`. -/
def getRestoreKeys (platform : String) (version : String) : List String :=
  ["claude-code-" ++ platform ++ "-" ++ version ++ "-",
   "claude-code-" ++ platform ++ "-"]

/-- Model of `getCachePaths`/`getClaudePaths`: the two cached directories derived
from the home directory (`path.join` modelled as slash concatenation). -/
def getCachePaths (home : String) : List String :=
  [home ++ "/.local/bin", home ++ "/.local/share/claude"]

/-- Evaluation of `getCacheKey` as run on a given host: `os.platform()` is `h.osType`. -/
def getCacheKeyOnHost (h : Host) (date version : String) : String :=
  getCacheKey h.osType date version

/-- Evaluation of `getRestoreKeys` as run on a given host: `os.platform()` is `h.osType`. -/
def getRestoreKeysOnHost (h : Host) (version : String) : List String :=
  getRestoreKeys h.osType version

/-! ## Helper lemmas on string append -/

lemma string_data_append (s t : String) : (s ++ t).data = s.data ++ t.data := rfl

lemma string_append_left_cancel {s t u : String} (h : s ++ t = s ++ u) : t = u := by
  have hd : s.data ++ t.data = s.data ++ u.data := by
    have := congrArg String.data h
    simpa [string_data_append] using this
  have hdata : t.data = u.data := List.append_cancel_left hd
  cases t with
  | mk td =>
    cases u with
    | mk ud => exact congrArg String.mk hdata

lemma string_append_assoc (s t u : String) : s ++ t ++ u = s ++ (t ++ u) := by
  cases s with
  | mk a =>
  cases t with
  | mk b =>
  cases u with
  | mk c =>
  exact congrArg String.mk (List.append_assoc a b c)

lemma string_eq_of_data {s t : String} (h : s.data = t.data) : s = t := by
  cases s with
  | mk sd =>
    cases t with
    | mk td => exact congrArg String.mk h

lemma string_append_congr_right (a : String) {x y : String} (h : x = y) :
    a ++ x = a ++ y := by rw [h]

/-! ## Platform detection (`src/utils.ts`) -/

/-- The OS branch of `getPlatform`: the `switch (osType)` block. -/
def detectOs (h : Host) : Except InstallError String :=
  if h.osType = "darwin" then Except.ok "darwin"
  else if h.osType = "linux" then Except.ok "linux"
  else if h.osType = "win32" then
    Except.error (InstallError.unsupportedPlatform "Windows is not supported")
  else Except.error (InstallError.unsupportedPlatform ("Unsupported OS: " ++ h.osType))

/-- The architecture branch of `getPlatform`. -/
def detectArch (h : Host) : Except InstallError String :=
  if h.archType = "x64" then Except.ok "x64"
  else if h.archType = "arm64" then Except.ok "arm64"
  else Except.error
    (InstallError.unsupportedPlatform ("Unsupported architecture: " ++ h.archType))

/-- Model of `isMusl` from `src/utils.ts`: existence probe of the two musl marker
library paths (the `try/catch` around `existsSync` never fires in the
model, since `fileExists` is total). -/
def isMusl (h : Host) : Bool :=
  h.fileExists "/lib/libc.musl-x86_64.so.1" || h.fileExists "/lib/libc.musl-aarch64.so.1"

/-- Model of `getPlatform` from `src/utils.ts`. -/
def getPlatform (h : Host) : Except InstallError Platform :=
  match detectOs h with
  | Except.error e => Except.error e
  | Except.ok detectedOs =>
    match detectArch h with
    | Except.error e => Except.error e
    | Except.ok detectedArch =>
      let base := detectedOs ++ "-" ++ detectedArch
      let platform := if detectedOs = "linux" then
          (if isMusl h then base ++ "-musl" else base)
        else base
      Except.ok { os := detectedOs, arch := detectedArch, platform := platform }

/-- The finite language denoted by the anchored regular expression
`^(darwin|linux)-(x64|arm64)(-musl)?$` from the spec. -/
def platformIdPatternLang : List String :=
  ["darwin-x64", "darwin-arm64", "linux-x64", "linux-arm64",
   "darwin-x64-musl", "darwin-arm64-musl", "linux-x64-musl", "linux-arm64-musl"]

/-- Membership in the language of `^(darwin|linux)-(x64|arm64)(-musl)?$`. -/
def matchesPlatformIdPattern (s : String) : Bool := platformIdPatternLang.contains s

/-- Whether a platform id carries the `-musl` suffix (models
the endsWith probe of "-musl" over the character list). -/
def hasMuslSuffix (s : String) : Bool := "-musl".data.isSuffixOf s.data

/-! ## Installer (`src/installer.ts`)

Network and filesystem effects are split into a read-only oracle `World`
(which URL downloads to which temp path, the bytes at each path via
`readFile`/`sha256`, the parsed manifest, the installer subprocess exit
status) and a threaded effect state `S` (files currently on disk, the log
of downloaded URLs, chmod and subprocess calls). -/

/-- Read-only environment of one run. `manifest v pid` models
`JSON.parse(manifest)[.platforms?.[pid]?.checksum]` of the manifest
downloaded for version `v`; `sha256 p` models the streaming SHA-256 hex
digest `calculateSHA256(p)` of the file at path `p`; `execOk p args`
models whether `exec.exec(p, args)` exits zero. -/
structure World where
  host : Host
  downloadPath : String → String
  readFile : String → String
  manifest : String → String → Option String
  sha256 : String → String
  execOk : String → List String → Bool

/-- Filesystem/process effect state threaded through the installer. -/
structure S where
  files : List String
  downloads : List String
  chmods : List String
  execCalls : List (String × List String)
deriving Repr, DecidableEq

def S.empty : S := { files := [], downloads := [], chmods := [], execCalls := [] }

/-- Model of `tc.downloadTool(url)`: returns the temp path and records the
new file and the download. -/
def downloadTool (w : World) (url : String) (s : S) : String × S :=
  (w.downloadPath url,
   { s with files := w.downloadPath url :: s.files, downloads := s.downloads ++ [url] })

/-- Model of `fs.unlinkSync(p)`. -/
def unlinkFile (p : String) (s : S) : S := { s with files := s.files.erase p }

/-- Model of `fs.chmodSync(p, 0o755)`. -/
def chmodFile (p : String) (s : S) : S := { s with chmods := s.chmods ++ [p] }

/-- Model of JavaScript `String.prototype.trim`: strip whitespace from both
ends (the builtin `String.trim` is equivalent but does not reduce in the
kernel, so the model works on the character list). -/
def trimModel (s : String) : String :=
  String.mk (((s.data.dropWhile Char.isWhitespace).reverse.dropWhile Char.isWhitespace).reverse)

def GCS_BUCKET : String :=
  "https://storage.googleapis.com/claude-code-dist-86c565f3-f756-42ad-8dfa-d59b1c096819/claude-code-releases"

def stableVersionUrl : String := GCS_BUCKET ++ "/stable"

/-- Manifest URL for a version (the platform id is only used for the lookup
inside the manifest, not in the URL). -/
def manifestUrl (version : String) : String :=
  GCS_BUCKET ++ "/" ++ version ++ "/manifest.json"

/-- Binary artifact URL for a (version, platform id) pair. -/
def binaryUrl (version platform : String) : String :=
  GCS_BUCKET ++ "/" ++ version ++ "/" ++ platform ++ "/claude"

/-- Model of `fetchStableVersion`: download the stable pointer, read and
trim it, fail with `versionResolutionFailed` (message "Failed to fetch
stable version") when empty. -/
def fetchStableVersion (w : World) (s : S) : Except InstallError String × S :=
  let pr := downloadTool w stableVersionUrl s
  let content := trimModel (w.readFile pr.1)
  if content = "" then (Except.error InstallError.versionResolutionFailed, pr.2)
  else (Except.ok content, pr.2)

/-- The trimmed content of the stable pointer as this world serves it. -/
def stableVer (w : World) : String := trimModel (w.readFile (w.downloadPath stableVersionUrl))

/-- One checksum character class of the regex `/^[a-f0-9]{64}$/`. -/
def isLowerHexDigit (c : Char) : Bool :=
  (('a' ≤ c) && (c ≤ 'f')) || (('0' ≤ c) && (c ≤ '9'))

/-- Test of the regex `/^[a-f0-9]{64}$/` from `getChecksum`: exactly 64
characters, each a lowercase hex digit. -/
def isValidChecksumFormat (s : String) : Bool :=
  s.length == 64 && s.data.all isLowerHexDigit

/-- Model of `getChecksum`: download the manifest, look up the platform
entry. A missing platform entry or a falsy (empty) checksum throws
"Platform ... not found in manifest"; a present checksum failing the hex
regex throws "Invalid checksum format: ...". -/
def getChecksum (w : World) (version platform : String) (s : S) :
    Except InstallError String × S :=
  let pr := downloadTool w (manifestUrl version) s
  match w.manifest version platform with
  | none => (Except.error (InstallError.manifestMissing platform), pr.2)
  | some c =>
    if c = "" then (Except.error (InstallError.manifestMissing platform), pr.2)
    else if isValidChecksumFormat c then (Except.ok c, pr.2)
    else (Except.error (InstallError.invalidChecksumFormat c), pr.2)

/-- Model of `downloadAndVerifyBinary`: fetch the expected checksum first,
then download the binary, compare the streaming SHA-256 digest, delete the
download and throw `checksumMismatch` on difference, else chmod 0755 and
return the download path. -/
def downloadAndVerifyBinary (w : World) (version platform : String) (s : S) :
    Except InstallError String × S :=
  match getChecksum w version platform s with
  | (Except.error e, s1) => (Except.error e, s1)
  | (Except.ok expectedChecksum, s1) =>
    let pr := downloadTool w (binaryUrl version platform) s1
    let actualChecksum := w.sha256 pr.1
    if actualChecksum ≠ expectedChecksum then
      (Except.error (InstallError.checksumMismatch expectedChecksum actualChecksum),
       unlinkFile pr.1 pr.2)
    else
      (Except.ok pr.1, chmodFile pr.1 pr.2)

/-- Argument list built by `runInstaller`: the single element "install", plus the target
when given. -/
def installArgs (target : Option String) : List String :=
  match target with
  | some t => ["install", t]
  | none => ["install"]

/-- Model of `runInstaller`: invoke the binary with the install arguments;
a non-zero exit of `exec.exec` surfaces as `installerSubprocessFailed`. -/
def runInstaller (w : World) (binaryPath : String) (target : Option String) (s : S) :
    Except InstallError Unit × S :=
  let args := installArgs target
  let s1 := { s with execCalls := s.execCalls ++ [(binaryPath, args)] }
  if w.execOk binaryPath args then (Except.ok (), s1)
  else (Except.error InstallError.installerSubprocessFailed, s1)

/-- Model of `installClaudeCode`: detect platform, always resolve the
stable channel version, download and verify that stable binary, run its
installer, then delete the transient download. The `version` argument is
used by the source only in a log line, so it influences nothing here. -/
def installClaudeCode (w : World) (version : String) (target : Option String) (s : S) :
    Except InstallError Unit × S :=
  match getPlatform w.host with
  | Except.error e => (Except.error e, s)
  | Except.ok platform =>
    match fetchStableVersion w s with
    | (Except.error e, s1) => (Except.error e, s1)
    | (Except.ok stableVersion, s1) =>
      match downloadAndVerifyBinary w stableVersion platform.platform s1 with
      | (Except.error e, s2) => (Except.error e, s2)
      | (Except.ok binaryPath, s2) =>
        match runInstaller w binaryPath target s2 with
        | (Except.error e, s3) => (Except.error e, s3)
        | (Except.ok _, s3) => (Except.ok (), unlinkFile binaryPath s3)

/-! ## Cache coordinator (`src/cache.ts` restore/save, `src/main.ts`)

The external actions cache service may throw; its behavior is an oracle
returning `Except`.  The `try/catch` of `restoreCache`/`saveCache` turns a
thrown error into `false` / a warning, which the model captures by total
functions pattern-matching on the oracle result. -/

/-- Ambient environment of the cache coordinator: host, current UTC date,
home directory, and the two external cache endpoints
(`cache.restoreCache` and `cache.saveCache`), which either return or
throw (`Except.error` carries the thrown message). -/
structure CacheWorld where
  host : Host
  date : String
  home : String
  restoreResult : List String → String → List String → Except String (Option String)
  saveResult : List String → String → Except String Unit

/-- Outcome of `saveCache`: either the save succeeded or the error was
downgraded to a warning (`core.warning`); there is no throwing outcome. -/
inductive SaveOutcome where
  | saved
  | warned (msg : String)
deriving Repr, DecidableEq

/-- Model of `restoreCache` from `src/cache.ts`: a truthy matched key gives
`true`, a miss gives `false`, and the `catch` branch logs a warning and
gives `false`.  Totality of this function is the model of "no exception
escapes to the caller". -/
def restoreCache (cw : CacheWorld) (version : String) : Bool :=
  let cachePaths := getCachePaths cw.home
  let primaryKey := getCacheKey cw.host.osType cw.date version
  let rKeys := getRestoreKeys cw.host.osType version
  match cw.restoreResult cachePaths primaryKey rKeys with
  | Except.ok (some _) => true
  | Except.ok none => false
  | Except.error _ => false

/-- Model of `saveCache` from `src/cache.ts`: the `catch` branch downgrades
a cache failure to a warning; the function never throws. -/
def saveCache (cw : CacheWorld) (version : String) : SaveOutcome :=
  match cw.saveResult (getCachePaths cw.home) (getCacheKey cw.host.osType cw.date version) with
  | Except.ok _ => SaveOutcome.saved
  | Except.error e => SaveOutcome.warned e

/-- Decision in `src/main.ts` (`if (!cacheHit) { await installClaudeCode... }`):
the install step runs exactly when restore reported a miss. -/
def installStepRuns (cacheHit : Bool) : Bool := !cacheHit

/-! ## Concrete hosts used by witnesses -/

def hostLinuxX64 : Host :=
  { osType := "linux", archType := "x64", fileExists := fun _ => false }

def hostLinuxArm64Musl : Host :=
  { osType := "linux", archType := "arm64",
    fileExists := fun p => p == "/lib/libc.musl-aarch64.so.1" }

def hostWin : Host :=
  { osType := "win32", archType := "x64", fileExists := fun _ => false }

/-! ## Characterization lemmas for the installer pipeline -/

/-- State-free projection of the result of `getChecksum` (the outcome
depends only on the world, not on the effect state). -/
def checksumOutcome (w : World) (version pid : String) : Except InstallError String :=
  match w.manifest version pid with
  | none => Except.error (InstallError.manifestMissing pid)
  | some c =>
    if c = "" then Except.error (InstallError.manifestMissing pid)
    else if isValidChecksumFormat c then Except.ok c
    else Except.error (InstallError.invalidChecksumFormat c)

lemma fetchStableVersion_eq (w : World) (s : S) :
    fetchStableVersion w s =
      (if stableVer w = "" then Except.error InstallError.versionResolutionFailed
       else Except.ok (stableVer w),
       { s with files := w.downloadPath stableVersionUrl :: s.files,
                downloads := s.downloads ++ [stableVersionUrl] }) := by
  simp only [fetchStableVersion, downloadTool, stableVer]
  by_cases hc : trimModel (w.readFile (w.downloadPath stableVersionUrl)) = ""
  · simp [hc]
  · simp [hc]

lemma getChecksum_eq (w : World) (version pid : String) (s : S) :
    getChecksum w version pid s =
      (checksumOutcome w version pid,
       { s with files := w.downloadPath (manifestUrl version) :: s.files,
                downloads := s.downloads ++ [manifestUrl version] }) := by
  simp only [getChecksum, checksumOutcome, downloadTool]
  cases hm : w.manifest version pid with
  | none => rfl
  | some c =>
    by_cases hc : c = ""
    · simp [hc]
    · by_cases hf : isValidChecksumFormat c = true
      · simp [hc, hf]
      · simp [hc, hf]

/-- Complete run of `installClaudeCode` when platform detection, stable
resolution, checksum fetch and digest verification all succeed: the final
state is decided by the installer subprocess exit status, and the
transient binary is removed from disk exactly on the success branch. -/
lemma installClaudeCode_run (w : World) (v : String) (t : Option String) (s : S)
    (p : Platform) (c : String)
    (hp : getPlatform w.host = Except.ok p)
    (hsv : stableVer w ≠ "")
    (hck : checksumOutcome w (stableVer w) p.platform = Except.ok c)
    (hmatch : w.sha256 (w.downloadPath (binaryUrl (stableVer w) p.platform)) = c) :
    installClaudeCode w v t s =
      if w.execOk (w.downloadPath (binaryUrl (stableVer w) p.platform)) (installArgs t) then
        (Except.ok (),
         { files := w.downloadPath (manifestUrl (stableVer w)) ::
              w.downloadPath stableVersionUrl :: s.files,
           downloads := s.downloads ++ [stableVersionUrl, manifestUrl (stableVer w),
              binaryUrl (stableVer w) p.platform],
           chmods := s.chmods ++ [w.downloadPath (binaryUrl (stableVer w) p.platform)],
           execCalls := s.execCalls ++
              [(w.downloadPath (binaryUrl (stableVer w) p.platform), installArgs t)] })
      else
        (Except.error InstallError.installerSubprocessFailed,
         { files := w.downloadPath (binaryUrl (stableVer w) p.platform) ::
              w.downloadPath (manifestUrl (stableVer w)) ::
              w.downloadPath stableVersionUrl :: s.files,
           downloads := s.downloads ++ [stableVersionUrl, manifestUrl (stableVer w),
              binaryUrl (stableVer w) p.platform],
           chmods := s.chmods ++ [w.downloadPath (binaryUrl (stableVer w) p.platform)],
           execCalls := s.execCalls ++
              [(w.downloadPath (binaryUrl (stableVer w) p.platform), installArgs t)] }) := by
  unfold installClaudeCode
  rw [hp, fetchStableVersion_eq, if_neg hsv]
  dsimp only
  unfold downloadAndVerifyBinary
  rw [getChecksum_eq, hck]
  dsimp only [downloadTool]
  rw [if_neg (fun hne => hne hmatch)]
  unfold runInstaller
  dsimp only
  by_cases hex : w.execOk (w.downloadPath (binaryUrl (stableVer w) p.platform)) (installArgs t) = true
  · rw [if_pos hex, if_pos hex]
    simp [chmodFile, unlinkFile, List.erase_cons_head, List.append_assoc]
  · rw [if_neg hex, if_neg hex]
    simp [chmodFile, List.append_assoc]

/-! ## Theorems -/

/-- C1: the claim says the `"stable"` token is resolved to a concrete
version before cache-key construction, so that the key never contains the
literal word "stable".  The source `getCacheKey` has no such branch: the
token is spliced into the key verbatim, so the key is
`claude-code-{platform}-stable` and differs from the claimed
`claude-code-{platform}-2.0.27` even when the stable pointer resolves to
`2.0.27`.  (The repository test file `test/cache.test.ts` and changelog demand
the resolved form, so this is a defect of the code, not of the claim.) -/
theorem c1_stable_cache_key_left_unresolved (platform date : String) :
    getCacheKey platform date "stable" = ("claude-code-" ++ platform) ++ "-stable" ∧
    getCacheKey platform date "stable" ≠ ("claude-code-" ++ platform) ++ "-2.0.27" := by
  have hunfold : getCacheKey platform date "stable" = ("claude-code-" ++ platform) ++ "-stable" := by
    simp only [getCacheKey]
    rw [if_neg (by decide : ¬ ("stable" : String) = "latest")]
    rw [string_append_assoc ("claude-code-" ++ platform) "-" "stable"]
    exact string_append_congr_right _ (by decide)
  refine ⟨hunfold, fun hbad => ?_⟩
  rw [hunfold] at hbad
  exact absurd (string_append_left_cancel hbad) (by decide)

/-- C4: for every version token `getRestoreKeys` returns exactly two
entries in order: the token-specific prefix ending in `-`, then the
platform-wide prefix; for a non-`latest` token the first entry is the
primary cache key followed by `-`; concretely for `"1.0.0"` the result is
`["claude-code-{platform}-1.0.0-", "claude-code-{platform}-"]`; and for
`"latest"` the first restore key extended by the date is the primary key. -/
theorem c4_restore_keys_shape (platform version date : String) :
    getRestoreKeys platform version =
      ["claude-code-" ++ platform ++ "-" ++ version ++ "-",
       "claude-code-" ++ platform ++ "-"] ∧
    getRestoreKeys platform "1.0.0" =
      [("claude-code-" ++ platform) ++ "-1.0.0-",
       ("claude-code-" ++ platform) ++ "-"] ∧
    (version ≠ "latest" →
      getRestoreKeys platform version =
        [getCacheKey platform date version ++ "-",
         "claude-code-" ++ platform ++ "-"]) ∧
    getCacheKey platform date "latest" = ("claude-code-" ++ platform ++ "-latest-") ++ date := by
  refine ⟨rfl, ?_, ?_, ?_⟩
  · have e1 : (("claude-code-" ++ platform ++ "-") ++ "1.0.0") ++ "-" =
        ("claude-code-" ++ platform) ++ "-1.0.0-" := by
      rw [string_append_assoc, string_append_assoc]
      exact string_append_congr_right _ (by decide)
    simp only [getRestoreKeys]
    rw [e1]
  · intro hv
    simp only [getRestoreKeys, getCacheKey]
    rw [if_neg hv]
  · simp [getCacheKey]

/-- Closed instance of `c4_restore_keys_shape` at token `"1.0.0"`,
discharging the non-`latest` hypothesis. -/
theorem c4_restore_keys_witness :
    ("1.0.0" : String) ≠ "latest" ∧
    getRestoreKeys "linux" "1.0.0" =
      [getCacheKey "linux" "2026-10-11" "1.0.0" ++ "-", "claude-code-" ++ "linux" ++ "-"] :=
  ⟨by decide, (c4_restore_keys_shape "linux" "1.0.0" "2026-10-11").2.2.1 (by decide)⟩

/-- C7: the `"latest"` cache key is the fixed stem followed by the current
UTC date (the `date` parameter models `getCurrentDate()`), so the key is
identical for equal dates and distinct for distinct calendar dates. -/
theorem c7_latest_key_rotates_daily (platform d1 d2 : String) :
    getCacheKey platform d1 "latest" = ("claude-code-" ++ platform ++ "-latest-") ++ d1 ∧
    (d1 = d2 → getCacheKey platform d1 "latest" = getCacheKey platform d2 "latest") ∧
    (d1 ≠ d2 → getCacheKey platform d1 "latest" ≠ getCacheKey platform d2 "latest") := by
  have h1 : getCacheKey platform d1 "latest" = ("claude-code-" ++ platform ++ "-latest-") ++ d1 := by
    simp [getCacheKey]
  have h2 : getCacheKey platform d2 "latest" = ("claude-code-" ++ platform ++ "-latest-") ++ d2 := by
    simp [getCacheKey]
  refine ⟨h1, fun he => by rw [he], fun hne hb => ?_⟩
  rw [h1, h2] at hb
  exact hne (string_append_left_cancel hb)

/-- Closed instance of `c7_latest_key_rotates_daily` on two distinct
calendar dates. -/
theorem c7_latest_key_witness :
    ("2026-10-10" : String) ≠ "2026-10-11" ∧
    getCacheKey "linux" "2026-10-10" "latest" ≠ getCacheKey "linux" "2026-10-11" "latest" :=
  ⟨by decide, (c7_latest_key_rotates_daily "linux" "2026-10-10" "2026-10-11").2.2 (by decide)⟩

/-- C9: cache keys and restore keys read only `os.platform()` (the OS
name) plus token and date — never the CPU architecture or musl flavor —
so two hosts agreeing on the OS name compute identical keys. -/
theorem c9_keys_depend_only_on_os (h1 h2 : Host) (date version : String)
    (hos : h1.osType = h2.osType) :
    getCacheKeyOnHost h1 date version = getCacheKeyOnHost h2 date version ∧
    getRestoreKeysOnHost h1 version = getRestoreKeysOnHost h2 version := by
  unfold getCacheKeyOnHost getRestoreKeysOnHost
  rw [hos]
  exact ⟨rfl, rfl⟩

/-- Closed instance of `c9_keys_depend_only_on_os` on two linux hosts that
differ in architecture and musl flavor. -/
theorem c9_keys_witness :
    hostLinuxX64.archType ≠ hostLinuxArm64Musl.archType ∧
    isMusl hostLinuxX64 ≠ isMusl hostLinuxArm64Musl ∧
    (getCacheKeyOnHost hostLinuxX64 "2026-10-11" "1.0.0" =
       getCacheKeyOnHost hostLinuxArm64Musl "2026-10-11" "1.0.0" ∧
     getRestoreKeysOnHost hostLinuxX64 "1.0.0" =
       getRestoreKeysOnHost hostLinuxArm64Musl "1.0.0") :=
  ⟨by decide, by decide,
   c9_keys_depend_only_on_os hostLinuxX64 hostLinuxArm64Musl "2026-10-11" "1.0.0" rfl⟩

/-- C2: the version token the user requested influences nothing in the
install pipeline (the source uses it only in a log line): two runs with
different tokens are identical, and every URL the pipeline downloads is
built from the fetched stable version and the detected platform id only. -/
theorem c2_binary_always_stable_channel (w : World) (v1 v2 : String) (t : Option String)
    (s : S) (p : Platform) (hp : getPlatform w.host = Except.ok p) :
    installClaudeCode w v1 t s = installClaudeCode w v2 t s ∧
    ∀ u, u ∈ (installClaudeCode w v1 t s).2.downloads →
      u ∈ s.downloads ∨ u = stableVersionUrl ∨
      u = manifestUrl (stableVer w) ∨ u = binaryUrl (stableVer w) p.platform := by
  refine ⟨rfl, ?_⟩
  intro u hu
  unfold installClaudeCode at hu
  rw [hp] at hu
  dsimp only at hu
  rw [fetchStableVersion_eq] at hu
  by_cases hsv : stableVer w = ""
  · rw [if_pos hsv] at hu
    dsimp only at hu
    simp only [List.mem_append, List.mem_singleton] at hu
    tauto
  · rw [if_neg hsv] at hu
    dsimp only at hu
    unfold downloadAndVerifyBinary at hu
    rw [getChecksum_eq] at hu
    cases hck : checksumOutcome w (stableVer w) p.platform with
    | error e =>
      rw [hck] at hu
      dsimp only at hu
      simp only [List.mem_append, List.mem_singleton] at hu
      tauto
    | ok c =>
      rw [hck] at hu
      dsimp only [downloadTool] at hu
      by_cases hmis : w.sha256 (w.downloadPath (binaryUrl (stableVer w) p.platform)) ≠ c
      · rw [if_pos hmis] at hu
        dsimp only [unlinkFile] at hu
        simp only [List.mem_append, List.mem_singleton] at hu
        tauto
      · rw [if_neg hmis] at hu
        dsimp only [chmodFile] at hu
        unfold runInstaller at hu
        dsimp only at hu
        by_cases hex : w.execOk (w.downloadPath (binaryUrl (stableVer w) p.platform))
            (installArgs t) = true
        · rw [if_pos hex] at hu
          dsimp only [unlinkFile] at hu
          simp only [List.mem_append, List.mem_singleton] at hu
          tauto
        · rw [if_neg hex] at hu
          dsimp only at hu
          simp only [List.mem_append, List.mem_singleton] at hu
          tauto

/-- C3: when the streaming digest of the downloaded binary differs from
the manifest checksum, the install fails with `checksumMismatch`, the
error message interpolates both the expected and the actual digest, and
the partial download is removed again before the error propagates (the
final file list is exactly the pre-download one). -/
theorem c3_checksum_mismatch_deletes_download (w : World) (version pid c : String) (s : S)
    (hm : w.manifest version pid = some c) (hne : c ≠ "")
    (hfmt : isValidChecksumFormat c = true)
    (hmis : w.sha256 (w.downloadPath (binaryUrl version pid)) ≠ c) :
    downloadAndVerifyBinary w version pid s =
      (Except.error (InstallError.checksumMismatch c
          (w.sha256 (w.downloadPath (binaryUrl version pid)))),
       { s with files := w.downloadPath (manifestUrl version) :: s.files,
                downloads := s.downloads ++ [manifestUrl version, binaryUrl version pid] }) ∧
    (∃ a b, errorMessage (InstallError.checksumMismatch c
        (w.sha256 (w.downloadPath (binaryUrl version pid)))) = a ++ c ++ b) ∧
    (∃ a, errorMessage (InstallError.checksumMismatch c
        (w.sha256 (w.downloadPath (binaryUrl version pid)))) =
          a ++ w.sha256 (w.downloadPath (binaryUrl version pid))) := by
  have hck : checksumOutcome w version pid = Except.ok c := by
    simp [checksumOutcome, hm, hne, hfmt]
  refine ⟨?_, ?_, ?_⟩
  · unfold downloadAndVerifyBinary
    rw [getChecksum_eq, hck]
    simp only [downloadTool, unlinkFile]
    rw [if_pos hmis]
    simp [List.erase_cons_head, List.append_assoc]
  · exact ⟨"Checksum verification failed. Expected: ",
      ", Got: " ++ w.sha256 (w.downloadPath (binaryUrl version pid)),
      by simp [errorMessage, string_append_assoc]⟩
  · exact ⟨"Checksum verification failed. Expected: " ++ c ++ ", Got: ", rfl⟩

/-- C6: a manifest without the requested platform key (or with a falsy
checksum) fails with `manifestMissing`, and a malformed checksum fails
with `invalidChecksumFormat`; in both cases `downloadAndVerifyBinary`
stops at the checksum fetch, so the only URL ever downloaded is the
manifest — the binary artifact download is never attempted. -/
theorem c6_checksum_failure_blocks_binary_download (w : World) (version pid : String) (s : S) :
    ((w.manifest version pid = none ∨ w.manifest version pid = some "") →
       (getChecksum w version pid s).1 = Except.error (InstallError.manifestMissing pid) ∧
       downloadAndVerifyBinary w version pid s = getChecksum w version pid s ∧
       (downloadAndVerifyBinary w version pid s).2.downloads =
         s.downloads ++ [manifestUrl version]) ∧
    (∀ c, w.manifest version pid = some c → c ≠ "" → isValidChecksumFormat c = false →
       (getChecksum w version pid s).1 = Except.error (InstallError.invalidChecksumFormat c) ∧
       downloadAndVerifyBinary w version pid s = getChecksum w version pid s ∧
       (downloadAndVerifyBinary w version pid s).2.downloads =
         s.downloads ++ [manifestUrl version]) := by
  constructor
  · intro hm
    have hck : checksumOutcome w version pid = Except.error (InstallError.manifestMissing pid) := by
      rcases hm with hm | hm
      · simp [checksumOutcome, hm]
      · simp [checksumOutcome, hm]
    have hdv : downloadAndVerifyBinary w version pid s = getChecksum w version pid s := by
      unfold downloadAndVerifyBinary
      rw [getChecksum_eq, hck]
    refine ⟨by rw [getChecksum_eq, hck], hdv, ?_⟩
    rw [hdv, getChecksum_eq]
  · intro c hm hne hfmt
    have hck : checksumOutcome w version pid =
        Except.error (InstallError.invalidChecksumFormat c) := by
      simp [checksumOutcome, hm, hne, hfmt]
    have hdv : downloadAndVerifyBinary w version pid s = getChecksum w version pid s := by
      unfold downloadAndVerifyBinary
      rw [getChecksum_eq, hck]
    refine ⟨by rw [getChecksum_eq, hck], hdv, ?_⟩
    rw [hdv, getChecksum_eq]

/-- C10: when every step up to the installer subprocess succeeds but the
subprocess exits non-zero, the run fails with `installerSubprocessFailed`
and the verified, chmod-ed binary stays on disk (its path is still in the
file list); the transient download is removed only on the success branch,
whose final file list no longer contains it. -/
theorem c10_installer_failure_keeps_binary (w : World) (v : String) (t : Option String)
    (s : S) (p : Platform) (c : String)
    (hp : getPlatform w.host = Except.ok p)
    (hsv : stableVer w ≠ "")
    (hm : w.manifest (stableVer w) p.platform = some c) (hne : c ≠ "")
    (hfmt : isValidChecksumFormat c = true)
    (hmatch : w.sha256 (w.downloadPath (binaryUrl (stableVer w) p.platform)) = c) :
    (w.execOk (w.downloadPath (binaryUrl (stableVer w) p.platform)) (installArgs t) = false →
       (installClaudeCode w v t s).1 = Except.error InstallError.installerSubprocessFailed ∧
       w.downloadPath (binaryUrl (stableVer w) p.platform) ∈
         (installClaudeCode w v t s).2.files ∧
       w.downloadPath (binaryUrl (stableVer w) p.platform) ∈
         (installClaudeCode w v t s).2.chmods) ∧
    (w.execOk (w.downloadPath (binaryUrl (stableVer w) p.platform)) (installArgs t) = true →
       (installClaudeCode w v t s).1 = Except.ok () ∧
       (installClaudeCode w v t s).2.files =
         w.downloadPath (manifestUrl (stableVer w)) ::
           w.downloadPath stableVersionUrl :: s.files) := by
  have hck : checksumOutcome w (stableVer w) p.platform = Except.ok c := by
    simp [checksumOutcome, hm, hne, hfmt]
  have hrun := installClaudeCode_run w v t s p c hp hsv hck hmatch
  constructor
  · intro hex
    rw [hrun, if_neg (by simp [hex])]
    exact ⟨rfl, by simp, by simp⟩
  · intro hex
    rw [hrun, if_pos hex]
    exact ⟨rfl, rfl⟩

/-- C5: a throwing external cache service is always caught: a failed
restore reports a miss (`false`, so `main.ts` still runs the install
step), and a failed save is downgraded to a warning outcome; both model
functions are total, so no exception can escape. -/
theorem c5_cache_failures_nonfatal (cw : CacheWorld) (version : String) :
    (∀ e, cw.restoreResult (getCachePaths cw.home)
        (getCacheKey cw.host.osType cw.date version)
        (getRestoreKeys cw.host.osType version) = Except.error e →
      restoreCache cw version = false ∧
      installStepRuns (restoreCache cw version) = true) ∧
    (∀ e, cw.saveResult (getCachePaths cw.home)
        (getCacheKey cw.host.osType cw.date version) = Except.error e →
      saveCache cw version = SaveOutcome.warned e) := by
  constructor
  · intro e he
    have hr : restoreCache cw version = false := by
      simp only [restoreCache]
      rw [he]
    exact ⟨hr, by simp [installStepRuns, hr]⟩
  · intro e he
    simp only [saveCache]
    rw [he]

/-- C8: every successful detection yields a platform id inside the
language of `^(darwin|linux)-(x64|arm64)(-musl)?$`, carrying the `-musl`
suffix exactly when the OS is linux and a musl marker file exists; any OS
outside `{darwin, linux}` (including the disallowed `win32`) or any
architecture outside `{x64, arm64}` fails with `unsupportedPlatform`. -/
theorem c8_getPlatform_pattern (h : Host) :
    (∀ p, getPlatform h = Except.ok p →
       matchesPlatformIdPattern p.platform = true ∧
       hasMuslSuffix p.platform = ((h.osType == "linux") && isMusl h)) ∧
    ((¬(h.osType = "darwin" ∨ h.osType = "linux") ∨
      ¬(h.archType = "x64" ∨ h.archType = "arm64")) →
       ∃ msg, getPlatform h = Except.error (InstallError.unsupportedPlatform msg)) := by
  constructor
  · intro p hp
    by_cases hd : h.osType = "darwin"
    · by_cases hx : h.archType = "x64"
      · simp [getPlatform, detectOs, detectArch, hd, hx] at hp
        subst hp
        refine ⟨by decide, ?_⟩
        have hr : (("darwin" == "linux") && isMusl h) = false := by simp
        rw [hd, hr]
        decide
      · by_cases ha : h.archType = "arm64"
        · simp [getPlatform, detectOs, detectArch, hd, hx, ha] at hp
          subst hp
          refine ⟨by decide, ?_⟩
          have hr : (("darwin" == "linux") && isMusl h) = false := by simp
          rw [hd, hr]
          decide
        · simp [getPlatform, detectOs, detectArch, hd, hx, ha] at hp
    · by_cases hl : h.osType = "linux"
      · by_cases hx : h.archType = "x64"
        · cases hmusl : isMusl h with
          | false =>
            simp [getPlatform, detectOs, detectArch, hd, hl, hx, hmusl] at hp
            subst hp
            refine ⟨by decide, ?_⟩
            rw [hl]
            decide
          | true =>
            simp [getPlatform, detectOs, detectArch, hd, hl, hx, hmusl] at hp
            subst hp
            refine ⟨by decide, ?_⟩
            rw [hl]
            decide
        · by_cases ha : h.archType = "arm64"
          · cases hmusl : isMusl h with
            | false =>
              simp [getPlatform, detectOs, detectArch, hd, hl, hx, ha, hmusl] at hp
              subst hp
              refine ⟨by decide, ?_⟩
              rw [hl]
              decide
            | true =>
              simp [getPlatform, detectOs, detectArch, hd, hl, hx, ha, hmusl] at hp
              subst hp
              refine ⟨by decide, ?_⟩
              rw [hl]
              decide
          · simp [getPlatform, detectOs, detectArch, hd, hl, hx, ha] at hp
      · by_cases hw : h.osType = "win32"
        · simp [getPlatform, detectOs, hd, hl, hw] at hp
        · simp [getPlatform, detectOs, hd, hl, hw] at hp
  · intro hbad
    by_cases hd : h.osType = "darwin"
    · rcases hbad with hbad | hbad
      · exact absurd (Or.inl hd) hbad
      · push_neg at hbad
        refine ⟨"Unsupported architecture: " ++ h.archType, ?_⟩
        simp [getPlatform, detectOs, detectArch, hd, hbad.1, hbad.2]
    · by_cases hl : h.osType = "linux"
      · rcases hbad with hbad | hbad
        · exact absurd (Or.inr hl) hbad
        · push_neg at hbad
          refine ⟨"Unsupported architecture: " ++ h.archType, ?_⟩
          simp [getPlatform, detectOs, detectArch, hd, hl, hbad.1, hbad.2]
      · by_cases hw : h.osType = "win32"
        · refine ⟨"Windows is not supported", ?_⟩
          simp [getPlatform, detectOs, hd, hl, hw]
        · refine ⟨"Unsupported OS: " ++ h.osType, ?_⟩
          simp [getPlatform, detectOs, hd, hl, hw]

/-- Closed instance of `c8_getPlatform_pattern`: a musl arm64 linux host
detects as `linux-arm64-musl`, and a win32 host fails with
`unsupportedPlatform`. -/
theorem c8_getPlatform_witness :
    (matchesPlatformIdPattern "linux-arm64-musl" = true ∧
     hasMuslSuffix "linux-arm64-musl" =
       ((hostLinuxArm64Musl.osType == "linux") && isMusl hostLinuxArm64Musl)) ∧
    (∃ msg, getPlatform hostWin = Except.error (InstallError.unsupportedPlatform msg)) := by
  constructor
  · exact (c8_getPlatform_pattern hostLinuxArm64Musl).1
      { os := "linux", arch := "arm64", platform := "linux-arm64-musl" } rfl
  · exact (c8_getPlatform_pattern hostWin).2 (Or.inl (by decide))


/-! ## Concrete worlds used by witnesses -/

/-- A 64-lowercase-hex digest used as the expected manifest checksum. -/
def goodChecksum : String := "aaaaaaaaaaaaaaaaaaaaaaaaaaaaaaaaaaaaaaaaaaaaaaaaaaaaaaaaaaaaaaaa"

/-- A different 64-lowercase-hex digest, the digest of unexpected bytes. -/
def badDigest : String := "bbbbbbbbbbbbbbbbbbbbbbbbbbbbbbbbbbbbbbbbbbbbbbbbbbbbbbbbbbbbbbbb"

/-- World where every step up to the installer succeeds, the manifest
carries `goodChecksum` for `2.0.27`/`linux-x64`, the download hashes to the
expected digest, and the installer subprocess exits non-zero. -/
def wInstall : World :=
  { host := hostLinuxX64,
    downloadPath := fun u => "/tmp/" ++ u,
    readFile := fun p => if p = "/tmp/" ++ stableVersionUrl then "2.0.27\n" else "",
    manifest := fun v pid => if v = "2.0.27" ∧ pid = "linux-x64" then some goodChecksum else none,
    sha256 := fun _ => goodChecksum,
    execOk := fun _ _ => false }

/-- Same world but the downloaded bytes hash to `badDigest`. -/
def wMismatch : World := { wInstall with sha256 := fun _ => badDigest }

/-- Same world but the manifest lacks every platform key. -/
def wNoPlat : World := { wInstall with manifest := fun _ _ => none }

/-- Same world but the manifest carries a malformed checksum. -/
def wBadFmt : World := { wInstall with manifest := fun _ _ => some "xyz" }

/-- Cache world whose external cache service throws on restore and save. -/
def failingCacheWorld : CacheWorld :=
  { host := hostLinuxX64, date := "2026-10-11", home := "/home/runner",
    restoreResult := fun _ _ _ => Except.error "transport error",
    saveResult := fun _ _ => Except.error "upload failed" }

/-- Closed instance of `c2_binary_always_stable_channel` on a concrete
linux world with two different requested tokens. -/
theorem c2_binary_witness :
    installClaudeCode wInstall "latest" none S.empty =
      installClaudeCode wInstall "1.0.0" none S.empty ∧
    ∀ u, u ∈ (installClaudeCode wInstall "latest" none S.empty).2.downloads →
      u ∈ S.empty.downloads ∨ u = stableVersionUrl ∨
      u = manifestUrl (stableVer wInstall) ∨
      u = binaryUrl (stableVer wInstall) "linux-x64" :=
  c2_binary_always_stable_channel wInstall "latest" "1.0.0" none S.empty
    { os := "linux", arch := "x64", platform := "linux-x64" } rfl

/-- Closed instance of `c3_checksum_mismatch_deletes_download` on a world
whose download hashes to `badDigest` instead of `goodChecksum`. -/
theorem c3_checksum_witness :
    downloadAndVerifyBinary wMismatch "2.0.27" "linux-x64" S.empty =
      (Except.error (InstallError.checksumMismatch goodChecksum
          (wMismatch.sha256 (wMismatch.downloadPath (binaryUrl "2.0.27" "linux-x64")))),
       { S.empty with
           files := wMismatch.downloadPath (manifestUrl "2.0.27") :: S.empty.files,
           downloads := S.empty.downloads ++
             [manifestUrl "2.0.27", binaryUrl "2.0.27" "linux-x64"] }) ∧
    (∃ a b, errorMessage (InstallError.checksumMismatch goodChecksum
        (wMismatch.sha256 (wMismatch.downloadPath (binaryUrl "2.0.27" "linux-x64")))) =
          a ++ goodChecksum ++ b) ∧
    (∃ a, errorMessage (InstallError.checksumMismatch goodChecksum
        (wMismatch.sha256 (wMismatch.downloadPath (binaryUrl "2.0.27" "linux-x64")))) =
          a ++ wMismatch.sha256 (wMismatch.downloadPath (binaryUrl "2.0.27" "linux-x64"))) :=
  c3_checksum_mismatch_deletes_download wMismatch "2.0.27" "linux-x64" goodChecksum S.empty
    rfl (by decide) (by decide) (by decide)

/-- Closed instance of `c6_checksum_failure_blocks_binary_download` on a
manifest missing the platform key and on a malformed checksum. -/
theorem c6_checksum_witness :
    ((getChecksum wNoPlat "2.0.27" "linux-x64" S.empty).1 =
        Except.error (InstallError.manifestMissing "linux-x64") ∧
     downloadAndVerifyBinary wNoPlat "2.0.27" "linux-x64" S.empty =
        getChecksum wNoPlat "2.0.27" "linux-x64" S.empty ∧
     (downloadAndVerifyBinary wNoPlat "2.0.27" "linux-x64" S.empty).2.downloads =
        S.empty.downloads ++ [manifestUrl "2.0.27"]) ∧
    ((getChecksum wBadFmt "2.0.27" "linux-x64" S.empty).1 =
        Except.error (InstallError.invalidChecksumFormat "xyz") ∧
     downloadAndVerifyBinary wBadFmt "2.0.27" "linux-x64" S.empty =
        getChecksum wBadFmt "2.0.27" "linux-x64" S.empty ∧
     (downloadAndVerifyBinary wBadFmt "2.0.27" "linux-x64" S.empty).2.downloads =
        S.empty.downloads ++ [manifestUrl "2.0.27"]) :=
  ⟨(c6_checksum_failure_blocks_binary_download wNoPlat "2.0.27" "linux-x64" S.empty).1
      (Or.inl rfl),
   (c6_checksum_failure_blocks_binary_download wBadFmt "2.0.27" "linux-x64" S.empty).2
      "xyz" rfl (by decide) (by decide)⟩

/-- Closed instance of `c10_installer_failure_keeps_binary`: the installer
subprocess fails, the run errors, and the binary stays on disk. -/
theorem c10_installer_witness :
    (installClaudeCode wInstall "stable" none S.empty).1 =
      Except.error InstallError.installerSubprocessFailed ∧
    wInstall.downloadPath (binaryUrl (stableVer wInstall) "linux-x64") ∈
      (installClaudeCode wInstall "stable" none S.empty).2.files ∧
    wInstall.downloadPath (binaryUrl (stableVer wInstall) "linux-x64") ∈
      (installClaudeCode wInstall "stable" none S.empty).2.chmods :=
  (c10_installer_failure_keeps_binary wInstall "stable" none S.empty
    { os := "linux", arch := "x64", platform := "linux-x64" } goodChecksum
    rfl (by decide) rfl (by decide) (by decide) rfl).1 rfl

/-- Closed instance of `c5_cache_failures_nonfatal` on a throwing cache
service. -/
theorem c5_cache_witness :
    (restoreCache failingCacheWorld "1.0.0" = false ∧
     installStepRuns (restoreCache failingCacheWorld "1.0.0") = true) ∧
    saveCache failingCacheWorld "1.0.0" = SaveOutcome.warned "upload failed" :=
  ⟨(c5_cache_failures_nonfatal failingCacheWorld "1.0.0").1 "transport error" rfl,
   (c5_cache_failures_nonfatal failingCacheWorld "1.0.0").2 "upload failed" rfl⟩

end SetupClaudeCode
